import Mathlib

/-!
Shallow embedding of the secureChat repository (Angular frontend of the
"Secure Chat" / "Chat Magic" RAG chatbot) together with a spec-modelled
Answer Service, and proofs settling the frozen claims about it.

Sources embedded:
* `src/unnamed/part_001` — indexing model (`IndexingStatusEnum`,
  `IndexingProgress`, `IndexingStatus`).
* `src/unnamed/part_002` — chat model (`ChatMessage`, `PIIInfo`, `Source`,
  `ChatResponse`, `ConversationMessage`).
* `src/frontend/src/app/services/indexing.service.ts` — `IndexingService`.
* `src/frontend/src/app/components/chat/chat.component.ts` — `ChatComponent`.
* `src/frontend/src/app/components/indexing-status/indexing-status.component.ts`
  — `IndexingStatusComponent`.
* The backend Answer Service is not part of the source tree; it is modelled
  from the specification (section 4.5) where a claim needs it.
-/

namespace SecureChat

/-! ## Indexing model (src/unnamed/part_001) -/

/-- TS union type from the indexing model:
`export type IndexingStatusEnum = 'idle' | 'in_progress' | 'completed' | 'failed';` -/
inductive IndexingStatusEnum where
  | idle
  | in_progress
  | completed
  | failed
deriving DecidableEq, Repr

/-- The string literal each `IndexingStatusEnum` member stands for in TS. -/
def IndexingStatusEnum.toString : IndexingStatusEnum → String
  | .idle => "idle"
  | .in_progress => "in_progress"
  | .completed => "completed"
  | .failed => "failed"

/-- The string values of the TS union `IndexingStatusEnum`, in source order. -/
def indexingStatusEnumValues : List String :=
  ["idle", "in_progress", "completed", "failed"]

/-- The five status values named by the specification:
`status ∈ {idle, running, stopping, completed, failed}` (spec section 3).
This definition follows the spec words, for comparison with the source. -/
def specStatusValues : List String :=
  ["idle", "running", "stopping", "completed", "failed"]

/-- TS interface `IndexingProgress` from the indexing model.
`{ [key: string]: number }` mappings are modelled as association lists. -/
structure IndexingProgress where
  status : IndexingStatusEnum
  current_space : Option String
  total_spaces : Nat
  processed_spaces : Nat
  total_documents : Nat
  processed_documents : Nat
  current_message : Option String
  error_message : Option String
  total_pii_filtered : Option Nat
  pii_by_type : Option (List (String × Nat))
deriving DecidableEq, Repr

/-- The field names of the TS interface `IndexingProgress`, in source order. -/
def IndexingProgress.fields : List String :=
  ["status", "current_space", "total_spaces", "processed_spaces",
   "total_documents", "processed_documents", "current_message",
   "error_message", "total_pii_filtered", "pii_by_type"]

/-- The field names of the Indexing Run record as the specification lists them
(spec section 3). This definition follows the spec words, for comparison
with the source. -/
def specIndexingRunFields : List String :=
  ["status", "started_at", "total_spaces", "processed_spaces",
   "total_documents", "processed_documents", "current_space",
   "current_message", "error_message", "pii_report"]

/-- TS interface `IndexingStatus` from the indexing model. -/
structure IndexingStatus where
  last_indexed : Option String
  is_indexing : Bool
  total_documents : Nat
  total_spaces : Nat
  next_scheduled_run : Option String
  progress : Option IndexingProgress
  last_pii_filtered : Option Nat
  last_pii_by_type : Option (List (String × Nat))
deriving DecidableEq, Repr

/-! ## Chat model (src/unnamed/part_002) -/

/-- TS interface `ChatMessage`: the request body sent to the chat endpoint. -/
structure ChatMessage where
  message : String
  session_id : Option String
deriving DecidableEq, Repr

/-- TS interface `PIIInfo`: `{ total_count: number, entities: {type: count} }`. -/
structure PIIInfo where
  total_count : Nat
  entities : List (String × Nat)
deriving DecidableEq, Repr

/-- The field names of the TS interface `PIIInfo`, in source order. -/
def PIIInfo.fields : List String := ["total_count", "entities"]

/-- TS interface `Source`: one source attribution of an answer. -/
structure Source where
  title : String
  space : String
  url : String
deriving DecidableEq, Repr

/-- TS interface `ChatResponse`: the response delivered to the chat caller. -/
structure ChatResponse where
  response : String
  sources : List Source
  pii_filtered : Bool
  pii_info : Option PIIInfo
  session_id : Option String
  timestamp : String
deriving DecidableEq, Repr

/-- The field names of the TS interface `ChatResponse`, in source order. -/
def ChatResponse.fields : List String :=
  ["response", "sources", "pii_filtered", "pii_info", "session_id", "timestamp"]

/-- Role of a `ConversationMessage`: TS union `'user' | 'assistant'`. -/
inductive Role where
  | user
  | assistant
deriving DecidableEq, Repr

/-- TS `Date` values, modelled abstractly by the argument they were created
from (`new Date()` carries the current instant, `new Date(ts)` the string). -/
structure JsDate where
  value : String
deriving DecidableEq, Repr

/-- TS interface `ConversationMessage`: one entry of the conversation list. -/
structure ConversationMessage where
  role : Role
  content : String
  timestamp : JsDate
  sources : Option (List Source)
  pii_filtered : Option Bool
  pii_info : Option PIIInfo
deriving DecidableEq, Repr

/-! ## IndexingService (src/frontend/src/app/services/indexing.service.ts) -/

/-- HTTP method of a service operation. -/
inductive HttpMethod where
  | get
  | post
deriving DecidableEq, Repr

/-- The shape of the response a service operation yields:
`ackMessageStatus` is `{ message: string; status: string }` (startIndexing),
`ackMessage` is `{ message: string }` (stopIndexing),
`statusSnapshot` is `IndexingStatus` (getStatus),
`progressSnapshot` is `IndexingProgress` (getProgress). -/
inductive IndexingResponseShape where
  | ackMessageStatus
  | ackMessage
  | statusSnapshot
  | progressSnapshot
deriving DecidableEq, Repr

/-- One request-issuing operation of `IndexingService`: its method name, HTTP
verb, path relative to `environment.apiUrl`, and response shape. -/
structure ServiceOp where
  name : String
  method : HttpMethod
  path : String
  response : IndexingResponseShape
deriving DecidableEq, Repr

/-- `startIndexing(): Observable<{message, status}>` posts to `/api/indexing/start`. -/
def startIndexingOp : ServiceOp :=
  ⟨"startIndexing", .post, "/api/indexing/start", .ackMessageStatus⟩

/-- `stopIndexing(): Observable<{message}>` posts to `/api/indexing/stop`. -/
def stopIndexingOp : ServiceOp :=
  ⟨"stopIndexing", .post, "/api/indexing/stop", .ackMessage⟩

/-- `getStatus(): Observable<IndexingStatus>` gets `/api/indexing/status`. -/
def getStatusOp : ServiceOp :=
  ⟨"getStatus", .get, "/api/indexing/status", .statusSnapshot⟩

/-- `getProgress(): Observable<IndexingProgress>` gets `/api/indexing/progress`. -/
def getProgressOp : ServiceOp :=
  ⟨"getProgress", .get, "/api/indexing/progress", .progressSnapshot⟩

/-- The request-issuing operations of `IndexingService`, in source order.
The remaining two public members, `pollStatus` and `pollProgress`, issue no
request of their own: each of their emissions re-invokes `getStatus`
respectively `getProgress` (see `pollStatusRequest`, `pollProgressRequest`). -/
def indexingServiceOps : List ServiceOp :=
  [startIndexingOp, stopIndexingOp, getStatusOp, getProgressOp]

/-- Default polling interval of `pollStatus` (`intervalMs: number = 2000`). -/
def pollStatusDefaultIntervalMs : Nat := 2000

/-- Default polling interval of `pollProgress` (`intervalMs: number = 1000`). -/
def pollProgressDefaultIntervalMs : Nat := 1000

/-- Time (ms after subscription) of the n-th request of
`pollStatus(intervalMs)`. rxjs `interval(T)` emits at `T, 2T, 3T, ...`, and
`startWith(0)` prepends an immediate emission at time 0; `switchMap` turns
each emission into one `getStatus` request. -/
def pollStatusRequestTimes (intervalMs : Nat) : Nat → Nat
  | 0 => 0
  | n + 1 => (n + 1) * intervalMs

/-- Time (ms after subscription) of the n-th request of
`pollProgress(intervalMs)`, built exactly like `pollStatusRequestTimes`. -/
def pollProgressRequestTimes (intervalMs : Nat) : Nat → Nat
  | 0 => 0
  | n + 1 => (n + 1) * intervalMs

/-- The operation performed by the n-th emission of `pollStatus`: every
emission is one `getStatus` snapshot request, nothing else. -/
def pollStatusRequest (_n : Nat) : ServiceOp := getStatusOp

/-- The operation performed by the n-th emission of `pollProgress`: every
emission is one `getProgress` snapshot request, nothing else. -/
def pollProgressRequest (_n : Nat) : ServiceOp := getProgressOp

/-! ## IndexingStatusComponent
(src/frontend/src/app/components/indexing-status/indexing-status.component.ts) -/

/-- Time (ms after init) of the n-th status request the component issues:
`ngOnInit` calls `loadStatus()` (one immediate `getStatus` request) and then
`startPolling()`, which subscribes `interval(2000).pipe(switchMap(getStatus))`,
whose ticks fire at 2000, 4000, ... -/
def componentStatusRequestTimes : Nat → Nat
  | 0 => 0
  | n + 1 => (n + 1) * 2000

/-- The operation performed by the component's n-th status request: both
`loadStatus` and every polling tick call `indexingService.getStatus()`. -/
def componentStatusRequest (_n : Nat) : ServiceOp := getStatusOp

/-- `getSpacesProgress()` of `IndexingStatusComponent`:
if `!this.status?.progress || this.status.progress.total_spaces === 0`
return 0, else `processed_spaces / total_spaces * 100`. Arithmetic is
modelled over the rationals. -/
def getSpacesProgress (status : Option IndexingStatus) : ℚ :=
  match status.bind IndexingStatus.progress with
  | none => 0
  | some p =>
      if p.total_spaces = 0 then 0
      else ((p.processed_spaces : ℚ) / (p.total_spaces : ℚ)) * 100

/-! ## ChatComponent (src/frontend/src/app/components/chat/chat.component.ts) -/

/-- Character used for the base-36 fractional digit `d` of
`Math.random().toString(36)`: digits 0-9 then lowercase a-z. -/
def base36Char (d : Nat) : Char :=
  if d < 10 then Char.ofNat (48 + d) else Char.ofNat (97 + (d - 10))

/-- `Math.random().toString(36).substr(2, 9)`: the random number is modelled
by the list of base-36 fractional digits of its expansion, of which the
first 9 are kept. -/
def randomSuffix (digits : List Nat) : String :=
  String.mk ((digits.take 9).map (fun d => base36Char (d % 36)))

/-- `generateSessionId()`:
`` `session_${Date.now()}_${Math.random().toString(36).substr(2, 9)}` ``.
`Date.now()` is the millisecond timestamp, rendered in decimal. -/
def generateSessionId (nowMs : Nat) (randDigits : List Nat) : String :=
  "session_" ++ toString nowMs ++ "_" ++ randomSuffix randDigits

/-- The mutable fields of `ChatComponent`. -/
structure ChatState where
  messages : List ConversationMessage
  userInput : String
  isLoading : Bool
  sessionId : String
deriving DecidableEq, Repr

/-- The component constructor: empty conversation, empty input, not loading,
and `this.sessionId = this.generateSessionId()`. -/
def initChatState (nowMs : Nat) (randDigits : List Nat) : ChatState :=
  { messages := []
    userInput := ""
    isLoading := false
    sessionId := generateSessionId nowMs randDigits }

/-- The synchronous part of `sendMessage()`: the guard
`if (!this.userInput.trim() || this.isLoading) return;`, then pushing the
user message, clearing the input, setting `isLoading`, and issuing the
`chatService.sendMessage({message: query, session_id: this.sessionId})`
request (returned as the optional second component). -/
def sendMessage (now : JsDate) (s : ChatState) : ChatState × Option ChatMessage :=
  if s.userInput.trim = "" ∨ s.isLoading = true then
    (s, none)
  else
    let userMessage : ConversationMessage :=
      { role := .user
        content := s.userInput
        timestamp := now
        sources := none
        pii_filtered := none
        pii_info := none }
    let query := s.userInput
    ({ s with
        messages := s.messages ++ [userMessage]
        userInput := ""
        isLoading := true },
     some { message := query, session_id := some s.sessionId })

/-- The `next` callback of the `sendMessage` subscription: push the assistant
message built from the response and clear the loading flag. -/
def onChatSuccess (resp : ChatResponse) (s : ChatState) : ChatState :=
  { s with
    messages := s.messages ++
      [{ role := .assistant
         content := resp.response
         timestamp := JsDate.mk resp.timestamp
         sources := some resp.sources
         pii_filtered := some resp.pii_filtered
         pii_info := resp.pii_info }]
    isLoading := false }

/-- The fixed assistant text shown on any failed chat request. -/
def chatErrorText : String :=
  "Sorry, I encountered an error processing your request. Please try again."

/-- The `error` callback of the `sendMessage` subscription: the error value
is only logged to the console; a fixed assistant message is pushed and the
loading flag is cleared. -/
def onChatError (_err : String) (now : JsDate) (s : ChatState) : ChatState :=
  { s with
    messages := s.messages ++
      [{ role := .assistant
         content := chatErrorText
         timestamp := now
         sources := none
         pii_filtered := none
         pii_info := none }]
    isLoading := false }

/-- `useSuggestion(suggestion)`: set the input to the suggestion, then send. -/
def useSuggestion (now : JsDate) (suggestion : String) (s : ChatState) :
    ChatState × Option ChatMessage :=
  sendMessage now { s with userInput := suggestion }

/-- `onEnterKey(event)`: send on Enter without Shift, otherwise do nothing. -/
def onEnterKey (now : JsDate) (key : String) (shiftKey : Bool) (s : ChatState) :
    ChatState × Option ChatMessage :=
  if key = "Enter" ∧ shiftKey = false then sendMessage now s else (s, none)

/-! ## Answer Service, modelled from the spec

The backend (`backend/app/services/` of the repository, FastAPI/Python) is
not under `src/`; only its TS-side contracts are. The Answer Service below
is therefore modelled from the specification, section 4.5. -/

/-- PII Report of the spec, section 3:
`{total_count: integer ≥ 0, entities: mapping entity_type → count}`. -/
structure PIIReport where
  total_count : Nat
  entities : List (String × Nat)
deriving DecidableEq, Repr

/-- The metadata of one retrieved index entry, as the Vector Index search
returns it to the Answer Service: chunk identity, title/url/space metadata,
and the chunk text stored (already redacted) at index time. -/
structure IndexEntry where
  chunk_id : String
  title : String
  url : String
  space_id : String
  text : String
deriving DecidableEq, Repr

/-- Embedding vector of the external embedding provider. -/
abbrev Embedding := List ℚ

/-- The answer record of the spec, section 4.5:
`{response_text, sources, pii_filtered: bool, pii_report?}`. -/
structure AnswerResult where
  response_text : String
  sources : List Source
  pii_filtered : Bool
  pii_report : Option PIIReport
deriving DecidableEq, Repr

/-- The answer together with an account of every text the operation sent to
an external provider (embedding and completion inputs) and every text it
stored, used to state what leaves the pipeline. -/
structure AnswerTrace where
  result : AnswerResult
  transmitted : List String
  persisted : List String
deriving DecidableEq, Repr

/-- Modelled from the spec: prompt assembly of the Answer Service
(section 4.5) — "Builds a prompt bounding total context length to a
configured token/character budget: includes retrieved chunk texts (already
redacted at index time) with their titles, truncating the lowest-ranked
chunks first if the budget is exceeded." Retrieved chunks arrive ordered by
descending similarity, so chunks are kept from the front while they fit. -/
def takeWithinBudget (budget : Nat) : List (IndexEntry × ℚ) → List (IndexEntry × ℚ)
  | [] => []
  | c :: rest =>
      if c.1.text.length ≤ budget then
        c :: takeWithinBudget (budget - c.1.text.length) rest
      else []

/-- Modelled from the spec: the bounded prompt — retained chunk titles and
texts followed by the (redacted) query. -/
def buildPrompt (redactedQuery : String) (retrieved : List (IndexEntry × ℚ))
    (budget : Nat) : String :=
  let kept := takeWithinBudget budget retrieved
  let context := kept.foldl (fun acc c => acc ++ c.1.title ++ "\n" ++ c.1.text ++ "\n") ""
  context ++ "\n" ++ redactedQuery

/-- Modelled from the spec: the deduplicated source list — "one entry per
distinct `(title, url)` pair among retrieved chunks, ordered by best
similarity score" (the retrieved list is ordered by descending score). -/
def dedupSources (retrieved : List (IndexEntry × ℚ)) : List Source :=
  retrieved.foldl
    (fun acc c =>
      if acc.any (fun s => s.title == c.1.title && s.url == c.1.url) then acc
      else acc ++ [{ title := c.1.title, space := c.1.space_id, url := c.1.url }])
    []

/-- Modelled from the spec: the Answer Service operation
`answer(query_text, session_id?)` (section 4.5), which is absent from
`src/`. "Redacts query_text via the Redaction Gate; if
`pii_report.total_count > 0`, sets `pii_filtered = true` and uses the
redacted text for all downstream steps — the original unredacted query must
never be transmitted to the completion provider or persisted. Embeds the
redacted query; calls `Vector Index.search(embedding, top_k)`; builds a
bounded prompt; calls the completion provider; returns the completion text
plus a deduplicated sources list." The Redaction Gate, embedding provider,
vector search and completion provider are external dependencies, taken as
function parameters; the trace records every text transmitted to the
embedding/completion providers and every text persisted (the operation
stores nothing). -/
def answer (redactFn : String → String × PIIReport)
    (embed : String → Embedding)
    (search : Embedding → Nat → List (IndexEntry × ℚ))
    (complete : String → String)
    (top_k budget : Nat) (query_text : String) : AnswerTrace :=
  let r := redactFn query_text
  let redacted := r.1
  let report := r.2
  let queryEmbedding := embed redacted
  let retrieved := search queryEmbedding top_k
  let prompt := buildPrompt redacted retrieved budget
  let completion := complete prompt
  { result :=
      { response_text := completion
        sources := dedupSources retrieved
        pii_filtered := report.total_count != 0
        pii_report := if report.total_count != 0 then some report else none }
    transmitted := [redacted, prompt]
    persisted := [] }

/-! ## Concrete instances used by witnesses -/

/-- A redaction gate that always detects one PERSON entity. -/
def witnessRedact : String → String × PIIReport :=
  fun _ => ("[PERSON] asked about leave policy",
            { total_count := 1, entities := [("PERSON", 1)] })

/-- A trivial embedding provider. -/
def witnessEmbed : String → Embedding := fun _ => [1]

/-- A vector search returning no chunks. -/
def witnessSearch : Embedding → Nat → List (IndexEntry × ℚ) := fun _ _ => []

/-- A completion provider echoing its prompt. -/
def witnessComplete : String → String := fun p => p

/-- A concrete in-flight chat state, used to instantiate the guard of
`sendMessage`. -/
def witnessLoadingState : ChatState :=
  { messages := []
    userInput := "hello"
    isLoading := true
    sessionId := "session_0_abc" }

/-- A concrete progress record with two spaces, one processed. -/
def witnessProgress : IndexingProgress :=
  { status := .in_progress
    current_space := some "ENG"
    total_spaces := 2
    processed_spaces := 1
    total_documents := 7
    processed_documents := 3
    current_message := none
    error_message := none
    total_pii_filtered := none
    pii_by_type := none }

/-- A concrete status snapshot carrying `witnessProgress`. -/
def witnessStatus : IndexingStatus :=
  { last_indexed := none
    is_indexing := true
    total_documents := 7
    total_spaces := 2
    next_scheduled_run := none
    progress := some witnessProgress
    last_pii_filtered := none
    last_pii_by_type := none }

/-! ## Theorems settling the claims -/

/-- C2, counterexample: the claim names the value set
{idle, running, stopping, completed, failed}, but the source union type
`IndexingStatusEnum` contains the value "in_progress", which is not in the
claimed set, and contains neither "running" nor "stopping"; the claimed set
in turn lacks "in_progress". -/
theorem indexing_status_enum_not_five_values :
    indexingStatusEnumValues.contains "running" = false ∧
    indexingStatusEnumValues.contains "stopping" = false ∧
    indexingStatusEnumValues.contains "in_progress" = true ∧
    specStatusValues.contains "in_progress" = false ∧
    (indexingStatusEnumValues == specStatusValues) = false := by
  decide

/-- C2, amended: the indexing-status type exposed to status-polling callers
(`IndexingStatusEnum`, carried in `IndexingProgress.status`) has exactly the
four values idle, in_progress, completed, failed, and every status value a
caller can observe is one of them. -/
theorem indexing_status_enum_exactly_four_values :
    (∀ s : IndexingStatusEnum, indexingStatusEnumValues.contains s.toString = true) ∧
    (∀ p : IndexingProgress, indexingStatusEnumValues.contains p.status.toString = true) ∧
    ([IndexingStatusEnum.idle, .in_progress, .completed, .failed].map
        IndexingStatusEnum.toString) = indexingStatusEnumValues ∧
    indexingStatusEnumValues.length = 4 ∧
    indexingStatusEnumValues.Nodup := by
  refine ⟨?_, ?_, by decide, by decide, by decide⟩
  · intro s
    cases s <;> decide
  · intro p
    cases h : p.status <;> decide

/-- C3, counterexample: the TS response type `ChatResponse` has no field
named "response_text" and none named "pii_report"; the answer text travels
under "response" and the PII counts under "pii_info". -/
theorem chat_response_field_names_differ :
    ChatResponse.fields.contains "response_text" = false ∧
    ChatResponse.fields.contains "pii_report" = false ∧
    ChatResponse.fields.contains "response" = true ∧
    ChatResponse.fields.contains "pii_info" = true := by
  decide

/-- C3, amended: the chat-response record has the fields response, sources,
a boolean pii_filtered, and an optional pii_info of shape
{total_count, entities} (plus session_id and timestamp); the answer text is
carried under the field named "response" and the PII counts under the field
named "pii_info" — as witnessed by the chat component reading exactly those
fields into the conversation. -/
theorem chat_response_shape (resp : ChatResponse) (s : ChatState) :
    ChatResponse.fields =
      ["response", "sources", "pii_filtered", "pii_info", "session_id", "timestamp"] ∧
    PIIInfo.fields = ["total_count", "entities"] ∧
    ((onChatSuccess resp s).messages.map ConversationMessage.content) =
      (s.messages.map ConversationMessage.content) ++ [resp.response] ∧
    ((onChatSuccess resp s).messages.map ConversationMessage.pii_info) =
      (s.messages.map ConversationMessage.pii_info) ++ [resp.pii_info] ∧
    ((onChatSuccess resp s).messages.map ConversationMessage.pii_filtered) =
      (s.messages.map ConversationMessage.pii_filtered) ++ [some resp.pii_filtered] := by
  refine ⟨rfl, rfl, ?_, ?_, ?_⟩ <;> simp [onChatSuccess]

/-- C4, counterexample: the record returned by get_progress
(`IndexingProgress`) has the fields "total_pii_filtered" and "pii_by_type",
neither of which is among the Indexing Run fields listed by the claim. -/
theorem progress_field_outside_run_record :
    IndexingProgress.fields.contains "total_pii_filtered" = true ∧
    specIndexingRunFields.contains "total_pii_filtered" = false ∧
    IndexingProgress.fields.contains "pii_by_type" = true ∧
    specIndexingRunFields.contains "pii_by_type" = false := by
  decide

/-- C4, amended: every field of the record returned by get_progress is
either one of the Indexing Run fields listed by the claim or one of the two
fields total_pii_filtered and pii_by_type into which the run-level
pii_report is flattened; started_at is not part of the progress payload. -/
theorem progress_fields_subset_amended :
    (IndexingProgress.fields.all fun f =>
      specIndexingRunFields.contains f || f == "total_pii_filtered"
        || f == "pii_by_type") = true ∧
    IndexingProgress.fields.contains "started_at" = false ∧
    IndexingProgress.fields.Nodup := by
  decide

/-- C5: the request-issuing indexing interface consists of exactly the four
operations startIndexing, stopIndexing, getStatus and getProgress;
startIndexing and stopIndexing are POST commands returning an
acknowledgement message, getStatus GETs an IndexingStatus snapshot,
getProgress GETs an IndexingProgress snapshot, and the two polling helpers
issue no operation outside these four. -/
theorem indexing_service_four_operations (n : Nat) :
    indexingServiceOps = [startIndexingOp, stopIndexingOp, getStatusOp, getProgressOp] ∧
    indexingServiceOps.length = 4 ∧
    indexingServiceOps.map ServiceOp.name =
      ["startIndexing", "stopIndexing", "getStatus", "getProgress"] ∧
    indexingServiceOps.Nodup ∧
    startIndexingOp.method = .post ∧ startIndexingOp.response = .ackMessageStatus ∧
    stopIndexingOp.method = .post ∧ stopIndexingOp.response = .ackMessage ∧
    getStatusOp.method = .get ∧ getStatusOp.response = .statusSnapshot ∧
    getProgressOp.method = .get ∧ getProgressOp.response = .progressSnapshot ∧
    pollStatusRequest n ∈ indexingServiceOps ∧
    pollProgressRequest n ∈ indexingServiceOps := by
  refine ⟨rfl, rfl, by decide, by decide, rfl, rfl, rfl, rfl, rfl, rfl, rfl, rfl, ?_, ?_⟩ <;>
    simp [pollStatusRequest, pollProgressRequest, indexingServiceOps]

/-- C6: on any failure of a chat-message request the component appends one
fixed assistant message whose text is the stable string `chatErrorText`
(never the raw error value — the result does not depend on it), resets the
loading flag, and leaves input and session unchanged. -/
theorem chat_error_fixed_message (err err2 : String) (now : JsDate) (s : ChatState) :
    (onChatError err now s).messages =
      s.messages ++ [{ role := .assistant, content := chatErrorText, timestamp := now,
                       sources := none, pii_filtered := none, pii_info := none }] ∧
    chatErrorText =
      "Sorry, I encountered an error processing your request. Please try again." ∧
    (onChatError err now s).isLoading = false ∧
    (onChatError err now s).userInput = s.userInput ∧
    (onChatError err now s).sessionId = s.sessionId ∧
    onChatError err now s = onChatError err2 now s :=
  ⟨rfl, rfl, rfl, rfl, rfl, rfl⟩

/-- C7: indexing progress is reported by polling only — the first request
fires immediately (time 0), each later request exactly one interval after
the previous, the default interval is 2000 ms for status and 1000 ms for
progress (the status component polls at 2000 ms after an immediate
loadStatus), and every emission is one request of the snapshot endpoint,
with no other mechanism. -/
theorem polling_schedule (T n : Nat) :
    pollStatusRequestTimes T 0 = 0 ∧
    pollStatusRequestTimes T (n + 1) = pollStatusRequestTimes T n + T ∧
    pollProgressRequestTimes T 0 = 0 ∧
    pollProgressRequestTimes T (n + 1) = pollProgressRequestTimes T n + T ∧
    componentStatusRequestTimes 0 = 0 ∧
    componentStatusRequestTimes (n + 1) = componentStatusRequestTimes n + 2000 ∧
    pollStatusDefaultIntervalMs = 2000 ∧
    pollProgressDefaultIntervalMs = 1000 ∧
    pollStatusRequest n = getStatusOp ∧
    pollProgressRequest n = getProgressOp ∧
    componentStatusRequest n = getStatusOp := by
  refine ⟨rfl, ?_, rfl, ?_, rfl, ?_, rfl, rfl, rfl, rfl, rfl⟩ <;>
    cases n <;>
    simp [pollStatusRequestTimes, pollProgressRequestTimes,
      componentStatusRequestTimes] <;>
    ring

/-- C8: when the trimmed user input is empty or a request is in flight,
sendMessage is a no-op — no request is issued and the whole component state
(messages, userInput, isLoading, sessionId) is unchanged. -/
theorem send_message_guard_noop (now : JsDate) (s : ChatState)
    (h : s.userInput.trim = "" ∨ s.isLoading = true) :
    sendMessage now s = (s, none) := by
  unfold sendMessage
  rw [if_pos h]

/-- C8, witness: on a concrete state with a request in flight, sendMessage
changes nothing and sends nothing. -/
theorem send_message_guard_noop_witness :
    witnessLoadingState.isLoading = true ∧
    sendMessage (JsDate.mk "t0") witnessLoadingState = (witnessLoadingState, none) :=
  ⟨rfl, send_message_guard_noop (JsDate.mk "t0") witnessLoadingState (Or.inr rfl)⟩

/-- C9: getSpacesProgress is total and guarded — whenever the progress
record is absent it returns 0, and when it is present it returns 0 if
total_spaces is 0 and processed_spaces / total_spaces * 100 otherwise, so
the division is never taken with a zero denominator. -/
theorem get_spaces_progress_total (st : Option IndexingStatus) :
    (st.bind IndexingStatus.progress = none → getSpacesProgress st = 0) ∧
    (∀ p : IndexingProgress, st.bind IndexingStatus.progress = some p →
      (p.total_spaces = 0 → getSpacesProgress st = 0) ∧
      (p.total_spaces ≠ 0 →
        getSpacesProgress st =
          (p.processed_spaces : ℚ) / (p.total_spaces : ℚ) * 100)) := by
  constructor
  · intro h
    simp [getSpacesProgress, h]
  · intro p hp
    constructor
    · intro h0
      simp [getSpacesProgress, hp, h0]
    · intro hne
      simp [getSpacesProgress, hp, hne]

/-- C9, witness: on a concrete snapshot with 1 of 2 spaces processed the
progress is 50 percent. -/
theorem get_spaces_progress_total_witness :
    (some witnessStatus).bind IndexingStatus.progress = some witnessProgress ∧
    witnessProgress.total_spaces = 2 ∧
    getSpacesProgress (some witnessStatus) = 50 := by
  refine ⟨rfl, rfl, ?_⟩
  have h :=
    ((get_spaces_progress_total (some witnessStatus)).2 witnessProgress rfl).2
      (by decide)
  rw [h]
  norm_num [witnessProgress]

/-- Helper: every base-36 digit character is alphanumeric. -/
theorem base36Char_isAlphanum (d : Nat) (hd : d < 36) :
    (base36Char d).isAlphanum = true := by
  revert hd
  revert d
  decide

/-- Helper: both branches of sendMessage keep the session id. -/
theorem sendMessage_preserves_sessionId (now : JsDate) (s : ChatState) :
    (sendMessage now s).1.sessionId = s.sessionId := by
  unfold sendMessage
  split <;> rfl

/-- Helper: when sendMessage issues a request, the request carries the
component's session id. -/
theorem sendMessage_request_sessionId (now : JsDate) (s : ChatState) :
    ((sendMessage now s).2.all fun m => m.session_id == some s.sessionId) = true := by
  unfold sendMessage
  split
  · rfl
  · simp [Option.all]

/-- C10: the session id is generated once at construction as "session_"
followed by the decimal timestamp, an underscore and a base-36 alphanumeric
suffix; it is non-empty, every component operation leaves it unchanged, and
every chat request any operation issues carries exactly it. -/
theorem session_id_stable (t : Nat) (ds : List Nat) (now : JsDate)
    (err sug key : String) (resp : ChatResponse) (sh : Bool) (s : ChatState) :
    (initChatState t ds).sessionId =
      "session_" ++ toString t ++ "_" ++ randomSuffix ds ∧
    0 < (initChatState t ds).sessionId.length ∧
    ((randomSuffix ds).data.all Char.isAlphanum) = true ∧
    (sendMessage now s).1.sessionId = s.sessionId ∧
    ((sendMessage now s).2.all fun m => m.session_id == some s.sessionId) = true ∧
    (onChatSuccess resp s).sessionId = s.sessionId ∧
    (onChatError err now s).sessionId = s.sessionId ∧
    (useSuggestion now sug s).1.sessionId = s.sessionId ∧
    ((useSuggestion now sug s).2.all fun m => m.session_id == some s.sessionId) = true ∧
    (onEnterKey now key sh s).1.sessionId = s.sessionId ∧
    ((onEnterKey now key sh s).2.all fun m => m.session_id == some s.sessionId) = true := by
  refine ⟨rfl, ?_, ?_, sendMessage_preserves_sessionId now s,
    sendMessage_request_sessionId now s, rfl, rfl,
    sendMessage_preserves_sessionId now _, sendMessage_request_sessionId now _,
    ?_, ?_⟩
  · simp [initChatState, generateSessionId, String.length_append]
    exact Or.inl (Or.inl (Or.inl (by decide)))
  · simp only [randomSuffix, List.all_eq_true]
    intro c hc
    rcases List.mem_map.1 hc with ⟨d, _, rfl⟩
    exact base36Char_isAlphanum (d % 36) (Nat.mod_lt d (by omega))
  · unfold onEnterKey
    split
    · exact sendMessage_preserves_sessionId now s
    · rfl
  · unfold onEnterKey
    split
    · exact sendMessage_request_sessionId now s
    · rfl

/-- C1: for every query whose redaction report has total_count > 0, the
answer operation marks the result pii_filtered, transmits to the external
providers exactly the redacted text and the prompt built from it, persists
nothing, and its outward transmissions depend on the query only through its
redaction — two queries with the same redaction transmit the same texts, so
the unredacted original never flows to the completion provider or storage. -/
theorem answer_transmits_only_redacted
    (redactFn : String → String × PIIReport) (embed : String → Embedding)
    (search : Embedding → Nat → List (IndexEntry × ℚ)) (complete : String → String)
    (top_k budget : Nat) (q other : String)
    (hp : 0 < (redactFn q).2.total_count) :
    (answer redactFn embed search complete top_k budget q).result.pii_filtered = true ∧
    (answer redactFn embed search complete top_k budget q).transmitted =
      [(redactFn q).1,
       buildPrompt (redactFn q).1 (search (embed (redactFn q).1) top_k) budget] ∧
    (answer redactFn embed search complete top_k budget q).persisted = [] ∧
    (redactFn other = redactFn q →
      (answer redactFn embed search complete top_k budget other).transmitted =
        (answer redactFn embed search complete top_k budget q).transmitted ∧
      (answer redactFn embed search complete top_k budget other).persisted =
        (answer redactFn embed search complete top_k budget q).persisted) := by
  refine ⟨?_, rfl, rfl, ?_⟩
  · show ((redactFn q).2.total_count != 0) = true
    simpa [bne_iff_ne] using Nat.pos_iff_ne_zero.mp hp
  · intro h
    refine ⟨?_, rfl⟩
    simp only [answer]
    rw [h]

/-- C1, witness: a concrete redaction gate that detects one PERSON makes the
answer operation transmit only the redacted text and the prompt built from
it, and two different queries with the same redaction transmit the same. -/
theorem answer_transmits_only_redacted_witness :
    0 < (witnessRedact "call Jane on 0400 000 000").2.total_count ∧
    (answer witnessRedact witnessEmbed witnessSearch witnessComplete 2 100
        "call Jane on 0400 000 000").result.pii_filtered = true ∧
    (answer witnessRedact witnessEmbed witnessSearch witnessComplete 2 100
        "call Jane on 0400 000 000").transmitted =
      [(witnessRedact "call Jane on 0400 000 000").1,
       buildPrompt (witnessRedact "call Jane on 0400 000 000").1
         (witnessSearch
           (witnessEmbed (witnessRedact "call Jane on 0400 000 000").1) 2) 100] ∧
    (answer witnessRedact witnessEmbed witnessSearch witnessComplete 2 100
        "call Jane on 0400 000 000").persisted = [] ∧
    (answer witnessRedact witnessEmbed witnessSearch witnessComplete 2 100
        "ask about Jane").transmitted =
      (answer witnessRedact witnessEmbed witnessSearch witnessComplete 2 100
        "call Jane on 0400 000 000").transmitted := by
  have h := answer_transmits_only_redacted witnessRedact witnessEmbed witnessSearch
    witnessComplete 2 100 "call Jane on 0400 000 000" "ask about Jane" (by decide)
  exact ⟨by decide, h.1, h.2.1, h.2.2.1, (h.2.2.2 rfl).1⟩

end SecureChat
